import Mathlib

/-!
Verification of the sensorbee streaming-SQL execution core and topology
builder against its natural-language specification.

The execution plan (window buffers, relation composer, projection, filter,
emitter bookkeeping, cadence gate, plan driver) is exercised in the
repository only through its test suite; the implementation files are not
part of the source tree given here.  Those components are therefore
modelled from the specification, with the repository's tests as the
authority on concrete behaviour wherever the two disagree.  The topology
builder (`default_static_topology_builder.go`) is present as source and is
embedded directly.
-/

namespace Sensorbee

/-- Modelled from the spec: the tagged value variant of the tuple data
model (bool, integer, float, string, blob, timestamp, ordered sequence,
keyed mapping).  The float payload is represented by its bit pattern and a
timestamp by an integer number of seconds; no claim depends on float
arithmetic or sub-second resolution.  A mapping is an ordered association
list over string keys. -/
inductive Value where
  | bool (b : Bool)
  | int (n : Int)
  | float (bits : Int)
  | str (s : String)
  | blob (bytes : List Nat)
  | timestamp (t : Int)
  | array (xs : List Value)
  | map (m : List (String × Value))

/-- Row and tuple data: a keyed mapping from string to value, kept as an
ordered association list. -/
abbrev VMap := List (String × Value)

mutual

/-- Structural equality test on values; nested mappings compare entry-wise
in order. -/
def Value.beq : Value → Value → Bool
  | .bool a, .bool b => a == b
  | .int a, .int b => a == b
  | .float a, .float b => a == b
  | .str a, .str b => a == b
  | .blob a, .blob b => a == b
  | .timestamp a, .timestamp b => a == b
  | .array xs, .array ys => Value.beqList xs ys
  | .map m, .map m' => Value.beqEntries m m'
  | _, _ => false

/-- Elementwise equality test on value sequences. -/
def Value.beqList : List Value → List Value → Bool
  | [], [] => true
  | x :: xs, y :: ys => Value.beq x y && Value.beqList xs ys
  | _, _ => false

/-- Entrywise equality test on mappings. -/
def Value.beqEntries : List (String × Value) → List (String × Value) → Bool
  | [], [] => true
  | (k, v) :: xs, (k', v') :: ys =>
      k == k' && Value.beq v v' && Value.beqEntries xs ys
  | _, _ => false

end

mutual

theorem Value.beq_refl : (a : Value) → Value.beq a a = true
  | .bool _ | .int _ | .float _ | .str _ | .blob _ | .timestamp _ => by
      simp [Value.beq]
  | .array xs => by simp [Value.beq, Value.beqList_refl xs]
  | .map m => by simp [Value.beq, Value.beqEntries_refl m]

theorem Value.beqList_refl : (xs : List Value) → Value.beqList xs xs = true
  | [] => rfl
  | x :: xs => by simp [Value.beqList, Value.beq_refl x, Value.beqList_refl xs]

theorem Value.beqEntries_refl :
    (m : List (String × Value)) → Value.beqEntries m m = true
  | [] => rfl
  | (k, v) :: m => by
      simp [Value.beqEntries, Value.beq_refl v, Value.beqEntries_refl m]

end

mutual

theorem Value.eq_of_beq : (a b : Value) → Value.beq a b = true → a = b
  | .bool _, .bool _, h => by simpa [Value.beq] using h
  | .int _, .int _, h => by simpa [Value.beq] using h
  | .float _, .float _, h => by simpa [Value.beq] using h
  | .str _, .str _, h => by simpa [Value.beq] using h
  | .blob _, .blob _, h => by simpa [Value.beq] using h
  | .timestamp _, .timestamp _, h => by simpa [Value.beq] using h
  | .array xs, .array ys, h => by
      rw [Value.eqList_of_beq xs ys (by simpa [Value.beq] using h)]
  | .map m, .map m', h => by
      rw [Value.eqEntries_of_beq m m' (by simpa [Value.beq] using h)]

theorem Value.eqList_of_beq :
    (xs ys : List Value) → Value.beqList xs ys = true → xs = ys
  | [], [], _ => rfl
  | x :: xs, y :: ys, h => by
      have h' := h
      simp only [Value.beqList, Bool.and_eq_true] at h'
      rw [Value.eq_of_beq x y h'.1, Value.eqList_of_beq xs ys h'.2]

theorem Value.eqEntries_of_beq :
    (m m' : List (String × Value)) → Value.beqEntries m m' = true → m = m'
  | [], [], _ => rfl
  | (k, v) :: xs, (k', v') :: ys, h => by
      have h' := h
      simp only [Value.beqEntries, Bool.and_eq_true, beq_iff_eq] at h'
      rw [h'.1.1, Value.eq_of_beq v v' h'.1.2, Value.eqEntries_of_beq xs ys h'.2]

end

instance : DecidableEq Value := fun a b =>
  if h : Value.beq a b = true then isTrue (Value.eq_of_beq a b h)
  else isFalse (fun he => h (he ▸ Value.beq_refl a))

/-- Modelled from the spec: a tuple is a data mapping plus envelope
metadata (input name, event timestamp, processing timestamp, batch id). -/
structure Tuple where
  data : VMap
  inputName : String
  timestamp : Int
  procTimestamp : Int
  batchId : Int
deriving DecidableEq

/-- Lookup of a key in a mapping (first occurrence). -/
def mapGet (m : VMap) (k : String) : Option Value :=
  match m with
  | [] => none
  | (k', v) :: rest => if k' = k then some v else mapGet rest k

/-- Write of a key into a mapping: replaces the first occurrence in place,
otherwise appends at the end.  This realises the last-write-wins rule of
the projection semantics. -/
def mapInsert (m : VMap) (k : String) (v : Value) : VMap :=
  match m with
  | [] => [(k, v)]
  | (k', v') :: rest =>
      if k' = k then (k, v) :: rest else (k', v') :: mapInsert rest k v

deriving instance DecidableEq for Except

/-- Error kinds surfaced by the execution core. -/
inductive EvalError where
  | unknownInput
  | missingColumn
  | unknownRelation
  | ambiguous
  | typeMismatch
  | arithError
deriving DecidableEq

/-- Scalar binary operators appearing in the claims' queries. -/
inductive BinOp where
  | add
  | sub
  | mul
  | mod
  | eqOp
deriving DecidableEq

/-- Modelled from the spec: the expression tree of the evaluator, with
literal leaves, column references qualified by an optional relation alias
(the empty string standing for an unqualified reference), and scalar
binary operators. -/
inductive Expr where
  | lit (v : Value)
  | ref (al : String) (key : String)
  | binop (op : BinOp) (l r : Expr)
deriving DecidableEq

/-- Modelled from the spec: one side of a row binding, carrying the names
under which this FROM-clause input may be referenced (its source name and
its alias) together with the tuple data bound on this side. -/
structure BindingSide where
  names : List String
  data : VMap
deriving DecidableEq

/-- Row binding: one side per FROM-clause input, in FROM order. -/
abbrev Binding := List BindingSide

/-- Modelled from the spec: application of a scalar binary operator.
Integer arithmetic is exact; modulo by zero fails with `arithError`;
operators applied to incompatible kinds fail with `typeMismatch`; the
comparison operator returns a boolean and uses structural equality. -/
def applyBin (op : BinOp) (a b : Value) : Except EvalError Value :=
  match op, a, b with
  | .add, .int x, .int y => .ok (.int (x + y))
  | .sub, .int x, .int y => .ok (.int (x - y))
  | .mul, .int x, .int y => .ok (.int (x * y))
  | .mod, .int x, .int y =>
      if y = 0 then .error .arithError else .ok (.int (x % y))
  | .eqOp, x, y => .ok (.bool (Value.beq x y))
  | _, _, _ => .error .typeMismatch

/-- Modelled from the spec: expression evaluation against a row binding.
A qualified reference requires its alias to name a binding side
(`unknownRelation` otherwise) and its key to be present there
(`missingColumn` otherwise); an unqualified reference must find its key on
exactly one side (`missingColumn` when zero sides carry it, `ambiguous`
when several do). -/
def evalExpr (b : Binding) : Expr → Except EvalError Value
  | .lit v => .ok v
  | .ref al key =>
      if al = "" then
        match b.filter (fun s => (mapGet s.data key).isSome) with
        | [] => .error .missingColumn
        | [s] =>
            match mapGet s.data key with
            | some v => .ok v
            | none => .error .missingColumn
        | _ => .error .ambiguous
      else
        match b.find? (fun s => s.names.contains al) with
        | none => .error .unknownRelation
        | some s =>
            match mapGet s.data key with
            | some v => .ok v
            | none => .error .missingColumn
  | .binop op l r => do
      let lv ← evalExpr b l
      let rv ← evalExpr b r
      applyBin op lv rv

/-- Modelled from the spec: a window range specification, either
`Count n` (RANGE n TUPLES) or `Time d` (RANGE d SECONDS, with `d` in
seconds). -/
inductive RangeSpec where
  | count (n : Nat)
  | time (d : Int)
deriving DecidableEq

/-- Modelled from the spec: one FROM-clause input of a compiled plan:
relation name, alias (equal to the relation name when no alias is given)
and range specification. -/
structure InputSpec where
  relName : String
  alName : String
  range : RangeSpec
deriving DecidableEq

/-- Modelled from the spec: one entry of the emission cadence, a
threshold attached either to a specific relation (`EVERY k TUPLES IN rel`)
or to all inputs at once (`EVERY k TUPLES`, `rel = none`). -/
structure CadenceEntry where
  rel : Option String
  threshold : Nat
deriving DecidableEq

/-- Emitter disciplines. -/
inductive EmitterKind where
  | rstream
  | istream
  | dstream
deriving DecidableEq

/-- Modelled from the spec: one ordered projection item: an expression
with an optional output alias, a bare wildcard, or an aliased wildcard. -/
inductive ProjItem where
  | exprItem (e : Expr) (alName : Option String)
  | wildcard
  | wildcardAs (name : String)
deriving DecidableEq

/-- Modelled from the spec: the compiled logical plan handed to the plan
driver: emitter kind, emission cadence, ordered projection list, ordered
windowed inputs and an optional WHERE predicate. -/
structure LogicalPlan where
  kind : EmitterKind
  cadence : List CadenceEntry
  projection : List ProjItem
  inputs : List InputSpec
  predicate : Option Expr

/-- Modelled from the spec: the mutable execution state of one plan
instance: one window buffer per input (parallel to `plan.inputs`), the
per-relation arrival counters, the total arrival counter backing the
relation-less cadence form, and the prior-emission memo. -/
structure ExecState where
  windows : List (List Tuple)
  countsRel : List (String × Nat)
  countAll : Nat
  prevOutput : List VMap
deriving DecidableEq

/-- Initial state of a plan: empty windows, zero counters, empty memo. -/
def initState (plan : LogicalPlan) : ExecState :=
  { windows := plan.inputs.map (fun _ => [])
  , countsRel := []
  , countAll := 0
  , prevOutput := [] }

/-- Arrival count recorded for a relation (zero when never seen). -/
def getCount (cs : List (String × Nat)) (r : String) : Nat :=
  match cs with
  | [] => 0
  | (r', n) :: rest => if r' = r then n else getCount rest r

/-- Increment of the arrival count of a relation. -/
def bumpCount (cs : List (String × Nat)) (r : String) : List (String × Nat) :=
  match cs with
  | [] => [(r, 1)]
  | (r', n) :: rest =>
      if r' = r then (r', n + 1) :: rest else (r', n) :: bumpCount rest r

/-- Modelled from the spec: the RANGE retention rule applied after a
tuple with event-timestamp `tNew` has been appended.  `Count n` keeps the
`n` most recently admitted tuples; `Time d` drops every tuple whose
event-timestamp is strictly less than `tNew - d`, retaining equal
boundary values. -/
def evict (r : RangeSpec) (tNew : Int) (l : List Tuple) : List Tuple :=
  match r with
  | .count n => l.drop (l.length - n)
  | .time d => l.filter (fun u => decide (tNew - d ≤ u.timestamp))

/-- Index of the window buffer whose relation name matches an input name
(the first match in FROM order). -/
def findInputIdx (inputs : List InputSpec) (name : String) : Option Nat :=
  match inputs with
  | [] => none
  | i :: rest =>
      if i.relName = name then some 0
      else (findInputIdx rest name).map (· + 1)

/-- Replacement of the i-th element of a list. -/
def setAt {α : Type} (l : List α) (i : Nat) (x : α) : List α :=
  match l, i with
  | [], _ => []
  | _ :: rest, 0 => x :: rest
  | y :: rest, n + 1 => y :: setAt rest n x

/-- Modelled from the spec: the window-buffer `admit(tuple)` operation:
append the tuple at the tail and apply the retention rule. -/
def bufferAdmit (r : RangeSpec) (w : List Tuple) (t : Tuple) : List Tuple :=
  evict r t.timestamp (w ++ [t])

/-- Modelled from the spec: step 1 of the plan driver on `Process(t)`:
admit a copy of the tuple into the window buffer whose relation name
matches `t.inputName` (appending at the tail and applying the retention
rule) and increment the arrival counters.  Returns `none` when no input
matches (`UnknownInput`). -/
def admitTuple (plan : LogicalPlan) (st : ExecState) (t : Tuple) :
    Option ExecState :=
  match findInputIdx plan.inputs t.inputName with
  | none => none
  | some i =>
      let w := (st.windows.get? i).getD []
      let spec := (plan.inputs.get? i).map InputSpec.range
      let w' := bufferAdmit (spec.getD (.count 0)) w t
      some { st with
              windows := setAt st.windows i w'
            , countsRel := bumpCount st.countsRel t.inputName
            , countAll := st.countAll + 1 }

/-- Modelled from the spec: the cadence gate, as the behaviour pinned down
by the JOIN emitter tests in the repository (part_000, lines 1595-1737)
requires.  An empty cadence fires on every admission.  Otherwise the cycle
fires iff some cadence entry applies to this admission: a relation-less
entry fires when the total arrival count is a multiple of its threshold,
and an entry for relation `r` fires only when the admitted tuple arrived
on `r` and the arrival count of `r` is a multiple of its threshold.  The
counts are read after the increment of this admission. -/
def shouldEmit (cadence : List CadenceEntry) (st : ExecState)
    (rel : String) : Bool :=
  if cadence.isEmpty then true
  else cadence.any fun ce =>
    match ce.rel with
    | none => st.countAll % ce.threshold == 0
    | some r => r == rel && getCount st.countsRel r % ce.threshold == 0

/-- Modelled from the spec: the cadence gate exactly as the specification
words it ("a cycle fires iff for every listed relation `r`,
`arrival_counts[r] % T_r == 0`"), kept separate so that it can be compared
with the behaviour the tests require. -/
def shouldEmitSpec (cadence : List CadenceEntry) (st : ExecState) : Bool :=
  cadence.all fun ce =>
    match ce.rel with
    | none => st.countAll % ce.threshold == 0
    | some r => getCount st.countsRel r % ce.threshold == 0

/-- Binding side contributed by one tuple of one input: the input's
relation name and alias both resolve to this side. -/
def sideOf (spec : InputSpec) (t : Tuple) : BindingSide :=
  { names :=
      if spec.alName = spec.relName then [spec.relName]
      else [spec.relName, spec.alName]
  , data := t.data }

/-- Modelled from the spec: the relation composer.  Given the windows in
FROM order it yields the cross product of their contents as row bindings,
iterating the first window as the outermost loop and the last as the
innermost. -/
def compose : List (InputSpec × List Tuple) → List Binding
  | [] => [[]]
  | (spec, tups) :: rest =>
      (tups.map fun t =>
        (compose rest).map fun b => sideOf spec t :: b).flatten

/-- Wildcard merge: every key of every binding side is written into the
row, sides left to right, each side's data in its insertion order. -/
def mergeInto (row : VMap) (b : Binding) : VMap :=
  b.foldl (fun acc s => s.data.foldl (fun a kv => mapInsert a kv.1 kv.2) acc)
    row

/-- Output key of an anonymous projection item at 1-based position `idx`:
the tests name a bare column reference after the referenced column
(`SELECT int` yields key `int`, part_000 lines 74-93), while any other
anonymous expression is named `col_N` by position. -/
def anonKey (e : Expr) (idx : Nat) : String :=
  match e with
  | .ref _ key => key
  | _ => "col_" ++ toString idx

/-- Modelled from the spec: the projector.  The ordered projection items
are applied left to right into the output row with last-write-wins on key
collision; an anonymous expression at 1-based position `N` writes the key
given by `anonKey`, an aliased expression writes its alias, a bare
wildcard merges every side's data, and an aliased wildcard writes the
merged side data as one nested mapping under its alias.  Any item error
fails the row. -/
def applyItems (b : Binding) : List ProjItem → Nat → VMap →
    Except EvalError VMap
  | [], _, row => .ok row
  | item :: rest, idx, row =>
      match item with
      | .exprItem e alName =>
          match evalExpr b e with
          | .error err => .error err
          | .ok v =>
              let key := alName.getD (anonKey e idx)
              applyItems b rest (idx + 1) (mapInsert row key v)
      | .wildcard => applyItems b rest (idx + 1) (mergeInto row b)
      | .wildcardAs name =>
          applyItems b rest (idx + 1)
            (mapInsert row name (.map (mergeInto [] b)))

/-- Projection of one row binding. -/
def projectRow (plan : LogicalPlan) (b : Binding) : Except EvalError VMap :=
  applyItems b plan.projection 1 []

/-- Modelled from the spec: evaluation of one candidate row binding: the
WHERE predicate is evaluated first against the input binding and must
yield boolean true for the row to survive; surviving rows are projected.
`none` marks a filtered-out row, errors propagate. -/
def evalBinding (plan : LogicalPlan) (b : Binding) :
    Except EvalError (Option VMap) :=
  match plan.predicate with
  | none =>
      match projectRow plan b with
      | .error e => .error e
      | .ok row => .ok (some row)
  | some p =>
      match evalExpr b p with
      | .error e => .error e
      | .ok (.bool true) =>
          match projectRow plan b with
          | .error e => .error e
          | .ok row => .ok (some row)
      | .ok (.bool false) => .ok none
      | .ok _ => .error .typeMismatch

/-- Evaluation of all candidate rows of a cycle, in composer order; the
first error discards every row collected so far. -/
def evalBindings (plan : LogicalPlan) :
    List Binding → Except EvalError (List VMap)
  | [] => .ok []
  | b :: rest =>
      match evalBinding plan b with
      | .error e => .error e
      | .ok none => evalBindings plan rest
      | .ok (some row) =>
          match evalBindings plan rest with
          | .error e => .error e
          | .ok rows => .ok (row :: rows)

/-- Row list `C` produced by one firing cycle from the current windows. -/
def computeRows (plan : LogicalPlan) (st : ExecState) :
    Except EvalError (List VMap) :=
  evalBindings plan (compose (plan.inputs.zip st.windows))

/-- Modelled from the spec: the emitter diff.  The specification words it
as a multiset difference, but the repository's ISTREAM tests (part_000,
lines 44-71 and 641-665 among others) require that a row of the left
operand is kept only when its value occurs nowhere in the right operand:
the diff keeps, in the left operand's order, those rows not contained in
the right operand at all. -/
def diffRows (l p : List VMap) : List VMap :=
  l.filter (fun row => !p.contains row)

/-- Order-preserving multiset difference, as the specification words the
emitter diff: every occurrence in the right operand cancels one occurrence
in the left operand.  Kept separate from `diffRows` so that the two can be
compared. -/
def msDiff (l p : List VMap) : List VMap :=
  p.foldl (fun acc x => acc.eraseP (fun y => decide (y = x))) l

/-- Modelled from the spec: the per-tuple plan driver `Process(t)`,
parametrized by the cadence gate so that the gate the tests require and
the gate the specification words can both be driven.  Steps: admit the
tuple and bump the counters (failing with `unknownInput` when no input
matches); evaluate the gate; when it does not fire return an empty output
without touching the memo; otherwise evaluate every candidate row (an
error aborts the call, keeping the admission but not the memo), apply the
emitter discipline and update the memo to this cycle's row list. -/
def processWith (gate : List CadenceEntry → ExecState → String → Bool)
    (plan : LogicalPlan) (st : ExecState) (t : Tuple) :
    ExecState × Except EvalError (List VMap) :=
  match admitTuple plan st t with
  | none => (st, .error .unknownInput)
  | some st1 =>
      if gate plan.cadence st1 t.inputName then
        match computeRows plan st1 with
        | .error e => (st1, .error e)
        | .ok rows =>
            let out :=
              match plan.kind with
              | .rstream => rows
              | .istream => diffRows rows st1.prevOutput
              | .dstream => diffRows st1.prevOutput rows
            ({ st1 with prevOutput := rows }, .ok out)
      else (st1, .ok [])

/-- Plan driver with the gate the repository's tests pin down. -/
def process (plan : LogicalPlan) (st : ExecState) (t : Tuple) :
    ExecState × Except EvalError (List VMap) :=
  processWith shouldEmit plan st t

/-- Feed of a tuple sequence through a plan, collecting each call's
result. -/
def runWith (gate : List CadenceEntry → ExecState → String → Bool)
    (plan : LogicalPlan) (st : ExecState) :
    List Tuple → List (Except EvalError (List VMap))
  | [] => []
  | t :: rest =>
      let (st', out) := processWith gate plan st t
      out :: runWith gate plan st' rest

/-- Feed of a tuple sequence from the initial state under the tests'
gate. -/
def runPlan (plan : LogicalPlan) (ts : List Tuple) :
    List (Except EvalError (List VMap)) :=
  runWith shouldEmit plan (initState plan) ts

/-!
Concrete scenarios, taken from the repository's test file (part_000).
`getTuples n` mirrors the test helper of the same name: the i-th tuple
(1-based value `i`) carries `data = {int: i}`, arrives on `src`, and its
event-timestamp is `i - 1` seconds after a fixed epoch.
-/

/-- The i-th test tuple (`i` is the 1-based value stored under `int`). -/
def testTuple (i : Nat) : Tuple :=
  { data := [("int", .int i)]
  , inputName := "src"
  , timestamp := (i : Int) - 1
  , procTimestamp := (i : Int) - 1
  , batchId := 7 }

/-- Mirror of the test helper `getTuples`. -/
def getTuples (n : Nat) : List Tuple :=
  (List.range n).map (fun k => testTuple (k + 1))

/-- Output row `{a: n}`. -/
def rowA (n : Int) : VMap := [("a", .int n)]

/-- Output row `{int: n}`. -/
def rowInt (n : Int) : VMap := [("int", .int n)]

/-- Single-input window specification `FROM src [RANGE 2 TUPLES]`. -/
def srcCount2 : List InputSpec := [⟨"src", "src", .count 2⟩]

/-- Single-input window specification `FROM src [RANGE 2 SECONDS]`. -/
def srcTime2 : List InputSpec := [⟨"src", "src", .time 2⟩]

/-- Projection `int AS a`. -/
def projIntAsA : List ProjItem := [.exprItem (.ref "" "int") (some "a")]

/-- Projection of the bare column `int`. -/
def projInt : List ProjItem := [.exprItem (.ref "" "int") none]

/-- Plan of `SELECT RSTREAM int AS a FROM src [RANGE 2 TUPLES]`
(part_000, lines 608-638). -/
def planRstreamCount2 : LogicalPlan :=
  { kind := .rstream, cadence := [], projection := projIntAsA
  , inputs := srcCount2, predicate := none }

/-- Plan of `SELECT DSTREAM int AS a FROM src [RANGE 2 TUPLES]`
(part_000, lines 830-855). -/
def planDstreamCount2 : LogicalPlan :=
  { kind := .dstream, cadence := [], projection := projIntAsA
  , inputs := srcCount2, predicate := none }

/-- Plan of `SELECT ISTREAM int FROM src [RANGE 2 TUPLES]`
(part_000, lines 398-453). -/
def planIstreamInt : LogicalPlan :=
  { kind := .istream, cadence := [], projection := projInt
  , inputs := srcCount2, predicate := none }

/-- Plan of `SELECT RSTREAM int FROM src [RANGE 2 TUPLES]`
(part_000, lines 351-396). -/
def planRstreamInt : LogicalPlan :=
  { kind := .rstream, cadence := [], projection := projInt
  , inputs := srcCount2, predicate := none }

/-- Plan of `SELECT RSTREAM int AS a FROM src [RANGE 2 SECONDS]`
(part_000, lines 541-573). -/
def planRstreamTime2 : LogicalPlan :=
  { kind := .rstream, cadence := [], projection := projIntAsA
  , inputs := srcTime2, predicate := none }

/-- Plan of `SELECT ISTREAM [EVERY 2 TUPLES] int AS a FROM src
[RANGE 2 TUPLES]` (part_000, lines 1177-1207). -/
def planIstreamEvery2 : LogicalPlan :=
  { kind := .istream, cadence := [⟨none, 2⟩], projection := projIntAsA
  , inputs := srcCount2, predicate := none }

/-- Plan of `SELECT RSTREAM [EVERY 2 TUPLES] int AS a FROM src
[RANGE 2 TUPLES]` (part_000, lines 991-1018). -/
def planRstreamEvery2 : LogicalPlan :=
  { kind := .rstream, cadence := [⟨none, 2⟩], projection := projIntAsA
  , inputs := srcCount2, predicate := none }

/-- The six test tuples of the error-recovery scenarios: `getTuples 6`
with the `int` key deleted from the second tuple (part_000, lines
352-354). -/
def brokenTuples : List Tuple :=
  (getTuples 6).map fun t =>
    if t.data = [("int", .int 2)] then { t with data := [] } else t

/-- Expression `(int - 1) * 2`. -/
def doubledExpr : Expr :=
  .binop .mul (.binop .sub (.ref "" "int") (.lit (.int 1))) (.lit (.int 2))

/-- Plan of `SELECT ISTREAM *, (int-1)*2 AS int FROM src
[RANGE 2 SECONDS]` (part_000, lines 258-277). -/
def planWildcardThenInt : LogicalPlan :=
  { kind := .istream, cadence := []
  , projection := [.wildcard, .exprItem doubledExpr (some "int")]
  , inputs := srcTime2, predicate := none }

/-- Plan of `SELECT ISTREAM (int-1)*2 AS int, * FROM src
[RANGE 2 SECONDS]` (part_000, lines 279-298). -/
def planIntThenWildcard : LogicalPlan :=
  { kind := .istream, cadence := []
  , projection := [.exprItem doubledExpr (some "int"), .wildcard]
  , inputs := srcTime2, predicate := none }

/-!
JOIN scenarios with per-relation cadences (part_000, lines 1595-1737).
Twelve tuples alternate between `src1` (even 0-based index, carrying
`a = idx/2 + 1`) and `src2` (odd index, carrying `b = idx/2 + 1`).
-/

/-- The idx-th JOIN test tuple (0-based index, mirroring the test's
rearrangement loop). -/
def joinTuple (idx : Nat) : Tuple :=
  if idx % 2 = 0 then
    { data := [("int", .int (idx + 1)), ("a", .int (idx / 2 + 1))]
    , inputName := "src1", timestamp := idx, procTimestamp := idx
    , batchId := 7 }
  else
    { data := [("int", .int (idx + 1)), ("b", .int (idx / 2 + 1))]
    , inputName := "src2", timestamp := idx, procTimestamp := idx
    , batchId := 7 }

/-- The twelve JOIN test tuples. -/
def joinTuples : List Tuple := (List.range 12).map joinTuple

/-- Projection `x:a AS l, y:b AS r`. -/
def projJoin : List ProjItem :=
  [.exprItem (.ref "x" "a") (some "l"), .exprItem (.ref "y" "b") (some "r")]

/-- The JOIN inputs `src1 [RANGE 3 TUPLES] AS x, src2 [RANGE 2 TUPLES]
AS y`. -/
def joinInputs : List InputSpec :=
  [⟨"src1", "x", .count 3⟩, ⟨"src2", "y", .count 2⟩]

/-- Plan of the JOIN with cadence `EVERY 2 TUPLES IN src1, 3 TUPLES IN
src2` (part_000, lines 1595-1675). -/
def joinPlanBoth : LogicalPlan :=
  { kind := .rstream
  , cadence := [⟨some "src1", 2⟩, ⟨some "src2", 3⟩]
  , projection := projJoin, inputs := joinInputs, predicate := none }

/-- Plan of the JOIN with cadence `EVERY 3 TUPLES IN src2` (part_000,
lines 1677-1737). -/
def joinPlanSrc2 : LogicalPlan :=
  { kind := .rstream
  , cadence := [⟨some "src2", 3⟩]
  , projection := projJoin, inputs := joinInputs, predicate := none }

/-- Output row `{l: a, r: b}` of the JOIN scenarios. -/
def rowLR (a b : Int) : VMap := [("l", .int a), ("r", .int b)]

/-- Expected outputs of the `EVERY 3 TUPLES IN src2` JOIN, as asserted by
the test (part_000, lines 1705-1735): every call but the 6th and 12th is
skipped. -/
def joinSrc2Expected : List (Except EvalError (List VMap)) :=
  [ .ok [], .ok [], .ok [], .ok [], .ok []
  , .ok [rowLR 1 2, rowLR 1 3, rowLR 2 2, rowLR 2 3, rowLR 3 2, rowLR 3 3]
  , .ok [], .ok [], .ok [], .ok [], .ok []
  , .ok [rowLR 4 5, rowLR 4 6, rowLR 5 5, rowLR 5 6, rowLR 6 5, rowLR 6 6]
  ]

/-- Expected outputs of the `EVERY 2 TUPLES IN src1, 3 TUPLES IN src2`
JOIN, as asserted by the test (part_000, lines 1623-1673). -/
def joinBothExpected : List (Except EvalError (List VMap)) :=
  [ .ok [], .ok []
  , .ok [rowLR 1 1, rowLR 2 1]
  , .ok [], .ok []
  , .ok [rowLR 1 2, rowLR 1 3, rowLR 2 2, rowLR 2 3, rowLR 3 2, rowLR 3 3]
  , .ok [rowLR 2 2, rowLR 2 3, rowLR 3 2, rowLR 3 3, rowLR 4 2, rowLR 4 3]
  , .ok [], .ok [], .ok []
  , .ok [rowLR 4 4, rowLR 4 5, rowLR 5 4, rowLR 5 5, rowLR 6 4, rowLR 6 5]
  , .ok [rowLR 4 5, rowLR 4 6, rowLR 5 5, rowLR 5 6, rowLR 6 5, rowLR 6 6]
  ]

/-- Expected outputs of `SELECT ISTREAM int FROM src [RANGE 2 TUPLES]`
fed the six tuples with the second one broken, as asserted by the test
(part_000, lines 407-452). -/
def istreamBrokenExpected : List (Except EvalError (List VMap)) :=
  [ .ok [rowInt 1], .error .missingColumn, .error .missingColumn
  , .ok [rowInt 3, rowInt 4], .ok [rowInt 5], .ok [rowInt 6] ]

/-- Expected outputs of `SELECT RSTREAM int FROM src [RANGE 2 TUPLES]`
fed the six tuples with the second one broken, as asserted by the test
(part_000, lines 360-395). -/
def rstreamBrokenExpected : List (Except EvalError (List VMap)) :=
  [ .ok [rowInt 1], .error .missingColumn, .error .missingColumn
  , .ok [rowInt 3, rowInt 4], .ok [rowInt 4, rowInt 5]
  , .ok [rowInt 5, rowInt 6] ]

/-- Expected outputs of `SELECT ISTREAM [EVERY 2 TUPLES] int AS a FROM
src [RANGE 2 TUPLES]` fed six tuples, as asserted by the test (part_000,
lines 1191-1205). -/
def istreamEvery2Expected : List (Except EvalError (List VMap)) :=
  [ .ok [], .ok [rowA 1, rowA 2], .ok [], .ok [rowA 3, rowA 4]
  , .ok [], .ok [rowA 5, rowA 6] ]

/-- Expected outputs of `SELECT RSTREAM [EVERY 2 TUPLES] int AS a FROM
src [RANGE 2 TUPLES]` fed four tuples, as asserted by the test (part_000,
lines 1005-1015). -/
def rstreamEvery2Expected : List (Except EvalError (List VMap)) :=
  [ .ok [], .ok [rowA 1, rowA 2], .ok [], .ok [rowA 3, rowA 4] ]

/-- Expected outputs of `SELECT RSTREAM int AS a FROM src
[RANGE 2 SECONDS]` fed four tuples, as asserted by the test (part_000,
lines 555-570). -/
def rstreamTime2Expected : List (Except EvalError (List VMap)) :=
  [ .ok [rowA 1], .ok [rowA 1, rowA 2], .ok [rowA 1, rowA 2, rowA 3]
  , .ok [rowA 2, rowA 3, rowA 4] ]

/-- Expected outputs of `SELECT RSTREAM int AS a FROM src
[RANGE 2 TUPLES]` fed four tuples, as asserted by the test (part_000,
lines 622-635). -/
def rstreamCount2Expected : List (Except EvalError (List VMap)) :=
  [ .ok [rowA 1], .ok [rowA 1, rowA 2], .ok [rowA 2, rowA 3]
  , .ok [rowA 3, rowA 4] ]

/-- Expected outputs of `SELECT DSTREAM int AS a FROM src
[RANGE 2 TUPLES]` fed four tuples, as asserted by the test (part_000,
lines 844-852). -/
def dstreamCount2Expected : List (Except EvalError (List VMap)) :=
  [ .ok [], .ok [], .ok [rowA 1], .ok [rowA 2] ]

/-- Plan of `SELECT ISTREAM 2 FROM src [RANGE 2 SECONDS]` (part_000,
lines 44-71), the scenario that pins the emitter diff down to set
membership: its window keeps duplicate rows, yet after the first call
nothing is emitted. -/
def planIstreamConst : LogicalPlan :=
  { kind := .istream, cadence := []
  , projection := [.exprItem (.lit (.int 2)) none]
  , inputs := srcTime2, predicate := none }

/-- Expected outputs of `SELECT ISTREAM 2 FROM src [RANGE 2 SECONDS]`
fed four tuples, as asserted by the test (part_000, lines 57-66). -/
def istreamConstExpected : List (Except EvalError (List VMap)) :=
  [ .ok [[("col_1", .int 2)]], .ok [], .ok [], .ok [] ]

/-- Plan `SELECT DSTREAM 1 AS a FROM src [RANGE 2 SECONDS]`, used to
separate the multiset and set readings of the DSTREAM diff when the time
window shrinks. -/
def planDstreamConst : LogicalPlan :=
  { kind := .dstream, cadence := []
  , projection := [.exprItem (.lit (.int 1)) (some "a")]
  , inputs := srcTime2, predicate := none }

/-- A bare tuple on `src` with a given event-timestamp. -/
def tsTuple (ts : Int) : Tuple :=
  { data := [("int", .int 0)], inputName := "src", timestamp := ts
  , procTimestamp := ts, batchId := 7 }

/-!
Embedding of the static topology builder
(`src/core/default_static_topology_builder.go`).  Only the parts the
claims touch are embedded: the edge list, the output-reference check, the
box input-schema check, and the `NamedInput` / sink `Input` declarers.
-/

/-- The `dataflowEdge` struct (default_static_topology_builder.go, lines
20-31). -/
structure DataflowEdge where
  From : String
  To : String
  InputName : String
deriving DecidableEq

/-- The builder fields the declarers read and write: the registered
source, box and sink names and the recorded edge list.  A box carries an
optional input-schema name list; `none` models a schemaless box (or a nil
`InputSchema()`). -/
structure TopologyBuilder where
  sources : List String
  boxes : List (String × Option (List String))
  sinks : List String
  edges : List DataflowEdge
deriving DecidableEq

/-- Errors the declarers record. -/
inductive BuilderError where
  | noSuchOutput (refname : String)
  | badInputName (inputName boxName : String)
  | alreadyConnected (name refname : String)
deriving DecidableEq

/-- The `IsValidOutputReference` check (lines 71-75): the referenced name
must be a registered source or box. -/
def isValidOutputReference (tb : TopologyBuilder) (name : String) : Bool :=
  tb.sources.contains name || (tb.boxes.map Prod.fst).contains name

/-- The `checkInput` schema check (lines 298-324): a schemaless box
accepts any input name; a schemaful box requires its input schema to have
the name or a `"*"` entry. -/
def checkInput (schema : Option (List String)) (inputName : String) : Bool :=
  match schema with
  | none => true
  | some names => names.contains inputName || names.contains "*"

/-- The duplicate-edge scan shared by `NamedInput` (lines 282-286) and the
sink declarer's `Input` (lines 355-359).  The Go loop body assigns the
comparison result and then unconditionally breaks, so only the first
stored edge is ever compared; an empty edge list yields false. -/
def edgeAlreadyExists (edges : List DataflowEdge) (edge : DataflowEdge) :
    Bool :=
  match edges with
  | [] => false
  | e :: _ => edge = e

/-- The box declarer: builder, box name, the box's input schema, and the
recorded error. -/
structure BoxDeclarer where
  tb : TopologyBuilder
  name : String
  schema : Option (List String)
  err : Option BuilderError
deriving DecidableEq

/-- The `NamedInput` declarer method (lines 263-296): does nothing after a
previous error; rejects an unknown output reference; rejects an input
name the box schema refuses; reports `is already connected` when the
duplicate scan finds the new edge; otherwise appends the edge. -/
def namedInput (bd : BoxDeclarer) (refname inputName : String) :
    BoxDeclarer :=
  match bd.err with
  | some _ => bd
  | none =>
      if !isValidOutputReference bd.tb refname then
        { bd with err := some (.noSuchOutput refname) }
      else if !checkInput bd.schema inputName then
        { bd with err := some (.badInputName inputName bd.name) }
      else
        let edge : DataflowEdge := ⟨refname, bd.name, inputName⟩
        if edgeAlreadyExists bd.tb.edges edge then
          { bd with err := some (.alreadyConnected bd.name refname) }
        else
          { bd with tb := { bd.tb with edges := bd.tb.edges ++ [edge] } }

/-- The `Input` declarer method of a box (lines 259-261): `NamedInput`
with the wildcard input name. -/
def boxInput (bd : BoxDeclarer) (refname : String) : BoxDeclarer :=
  namedInput bd refname "*"

/-- The sink declarer: builder, sink name and recorded error. -/
structure SinkDeclarer where
  tb : TopologyBuilder
  name : String
  err : Option BuilderError
deriving DecidableEq

/-- The sink declarer's `Input` method (lines 339-370): like `NamedInput`
but without a schema check, and the edge's input name is fixed to
`"output"`. -/
def sinkInput (sd : SinkDeclarer) (refname : String) : SinkDeclarer :=
  match sd.err with
  | some _ => sd
  | none =>
      if !isValidOutputReference sd.tb refname then
        { sd with err := some (.noSuchOutput refname) }
      else
        let edge : DataflowEdge := ⟨refname, sd.name, "output"⟩
        if edgeAlreadyExists sd.tb.edges edge then
          { sd with err := some (.alreadyConnected sd.name refname) }
        else
          { sd with tb := { sd.tb with edges := sd.tb.edges ++ [edge] } }

/-!
Deep copy of tuples (`Tuple.Copy`).  The implementation is not in the
source tree; only its test (`src/core/tuple/tuple_test.go`) is.
-/

mutual

/-- Modelled from the spec: the deep-clone operation defined on every
value variant, rebuilding composite values element by element. -/
def Value.clone : Value → Value
  | .bool b => .bool b
  | .int n => .int n
  | .float x => .float x
  | .str s => .str s
  | .blob bs => .blob bs
  | .timestamp t => .timestamp t
  | .array xs => .array (Value.cloneList xs)
  | .map m => .map (Value.cloneEntries m)

/-- Elementwise clone of a value sequence. -/
def Value.cloneList : List Value → List Value
  | [] => []
  | x :: xs => Value.clone x :: Value.cloneList xs

/-- Entrywise clone of a mapping. -/
def Value.cloneEntries : List (String × Value) → List (String × Value)
  | [] => []
  | (k, v) :: xs => (k, Value.clone v) :: Value.cloneEntries xs

end

/-- Modelled from the spec: `Tuple.Copy`, the deep copy of a tuple: the
data mapping is deep-cloned and the envelope metadata carried over. -/
def Tuple.copy (t : Tuple) : Tuple :=
  { data := Value.cloneEntries t.data
  , inputName := t.inputName
  , timestamp := t.timestamp
  , procTimestamp := t.procTimestamp
  , batchId := t.batchId }

/-- The concrete tuple of the `Tuple.Copy` test
(src/core/tuple/tuple_test.go, lines 10-27), with every value kind,
a nested array and a nested map. -/
def copyTestTuple : Tuple :=
  { data :=
      [ ("bool", .bool true)
      , ("int", .int 1)
      , ("float", .float 1)
      , ("string", .str "homhom")
      , ("byte", .blob [109, 97, 100, 109, 97, 100])
      , ("time", .timestamp 1428661380)
      , ("array", .array [.str "saysay", .str "mammam"])
      , ("map", .map [("string", .str "homhom")]) ]
  , inputName := ""
  , timestamp := 1428661380
  , procTimestamp := 1428661440
  , batchId := 7 }

/-- Execution state of the DSTREAM time-jump scenario after its first two
calls (tuples at seconds 0 and 1). -/
def dstreamJumpSt2 : ExecState :=
  (process planDstreamConst
    ((process planDstreamConst (initState planDstreamConst)
        (tsTuple 0)).1)
    (tsTuple 1)).1

/-- First edge of the concrete duplicate-edge scenario. -/
def c9Edge1 : DataflowEdge := ⟨"s1", "b", "*"⟩

/-- Second edge of the concrete duplicate-edge scenario. -/
def c9Edge2 : DataflowEdge := ⟨"s2", "b", "*"⟩

/-- A builder with two sources, one schemaless box and both edges already
recorded. -/
def c9Builder : TopologyBuilder :=
  ⟨["s1", "s2"], [("b", none)], [], [c9Edge1, c9Edge2]⟩

/-- The declarer of box `b` over that builder, with no prior error. -/
def c9Declarer : BoxDeclarer := ⟨c9Builder, "b", none, none⟩

/-!
Supporting lemmas about the plan driver, shared by several claims.
-/

theorem admitTuple_prevOutput (plan : LogicalPlan) (st : ExecState)
    (t : Tuple) (st1 : ExecState) (h : admitTuple plan st t = some st1) :
    st1.prevOutput = st.prevOutput := by
  unfold admitTuple at h
  cases hidx : findInputIdx plan.inputs t.inputName with
  | none => rw [hidx] at h; cases h
  | some i => rw [hidx] at h; cases h; rfl

theorem admitTuple_windows (plan : LogicalPlan) (st : ExecState)
    (t : Tuple) (st1 : ExecState) (i : Nat)
    (h : admitTuple plan st t = some st1)
    (hidx : findInputIdx plan.inputs t.inputName = some i) :
    st1.windows =
      setAt st.windows i
        (bufferAdmit (((plan.inputs.get? i).map InputSpec.range).getD
            (.count 0))
          ((st.windows.get? i).getD []) t) := by
  unfold admitTuple at h
  rw [hidx] at h
  cases h
  rfl

theorem processWith_of_admit_of_gateFalse
    (gate : List CadenceEntry → ExecState → String → Bool)
    (plan : LogicalPlan) (st : ExecState) (t : Tuple) (st1 : ExecState)
    (hadm : admitTuple plan st t = some st1)
    (hg : gate plan.cadence st1 t.inputName = false) :
    processWith gate plan st t = (st1, .ok []) := by
  unfold processWith
  rw [hadm]
  simp [hg]

theorem processWith_error_state
    (gate : List CadenceEntry → ExecState → String → Bool)
    (plan : LogicalPlan) (st : ExecState) (t : Tuple)
    (st1 st' : ExecState) (e : EvalError)
    (hadm : admitTuple plan st t = some st1)
    (hrun : processWith gate plan st t = (st', .error e)) :
    st' = st1 := by
  unfold processWith at hrun
  rw [hadm] at hrun
  by_cases hg : gate plan.cadence st1 t.inputName
  · simp only [hg, if_true] at hrun
    cases hrows : computeRows plan st1 with
    | error e' =>
        rw [hrows] at hrun
        simp only [Prod.mk.injEq] at hrun
        exact hrun.1.symm
    | ok rows => rw [hrows] at hrun; simp at hrun
  · simp only [Bool.not_eq_true] at hg
    simp only [hg, Bool.false_eq_true, if_false] at hrun
    simp at hrun

mutual

theorem Value.clone_eq : (v : Value) → Value.clone v = v
  | .bool _ | .int _ | .float _ | .str _ | .blob _ | .timestamp _ => rfl
  | .array xs => by rw [Value.clone, Value.cloneList_eq xs]
  | .map m => by rw [Value.clone, Value.cloneEntries_eq m]

theorem Value.cloneList_eq : (xs : List Value) → Value.cloneList xs = xs
  | [] => rfl
  | x :: xs => by
      rw [Value.cloneList, Value.clone_eq x, Value.cloneList_eq xs]

theorem Value.cloneEntries_eq :
    (m : List (String × Value)) → Value.cloneEntries m = m
  | [] => rfl
  | (k, v) :: m => by
      rw [Value.cloneEntries, Value.clone_eq v, Value.cloneEntries_eq m]

end

theorem mapGet_mapInsert (m : VMap) (k : String) (v : Value) :
    mapGet (mapInsert m k v) k = some v := by
  induction m with
  | nil => simp [mapInsert, mapGet]
  | cons p rest ih =>
      by_cases h : p.1 = k
      · simp [mapInsert, mapGet, h]
      · simp [mapInsert, mapGet, h, ih]

theorem compose_single (spec : InputSpec) (w : List Tuple) :
    compose [(spec, w)] = w.map (fun t => [sideOf spec t]) := by
  induction w with
  | nil => rfl
  | cons t rest ih =>
      simp only [compose, List.map_cons, List.flatten_cons] at ih ⊢
      simp only [List.map_nil] at ih ⊢
      rw [← ih]
      rfl

theorem bufferAdmit_count_length (n : Nat) (w : List Tuple) (t : Tuple) :
    (bufferAdmit (.count n) w t).length ≤ n := by
  simp only [bufferAdmit, evict, List.length_drop]
  omega

theorem bufferAdmit_time_mem (d : Int) (w : List Tuple) (t u : Tuple) :
    u ∈ bufferAdmit (.time d) w t ↔
      u ∈ w ++ [t] ∧ t.timestamp - d ≤ u.timestamp := by
  simp [bufferAdmit, evict, List.mem_filter]
  tauto

theorem bufferAdmit_time_le (d : Int) (w : List Tuple) (t : Tuple)
    (hmono : ∀ u ∈ w, u.timestamp ≤ t.timestamp) :
    ∀ a ∈ bufferAdmit (.time d) w t, a.timestamp ≤ t.timestamp := by
  intro a ha
  rcases List.mem_append.mp ((bufferAdmit_time_mem d w t a).mp ha).1 with
    h | h
  · exact hmono a h
  · rw [List.mem_singleton.mp h]

/-!
Claim theorems.
-/

/-- C1, counterexample.  Under the specification's wording of the cadence
gate (`shouldEmitSpec`: a cycle fires iff every listed relation's count
has hit its modulus), the `EVERY 3 TUPLES IN src2` JOIN scenario would
emit the full six-row cross product at its seventh call — the admitted
tuple arrives on `src1`, yet `src2`'s count stands at 3 — while the
repository's test asserts that this call is skipped; the claimed gating
rule therefore contradicts the program. -/
theorem C1_counterexample :
    runWith (fun c st _ => shouldEmitSpec c st) joinPlanSrc2
        (initState joinPlanSrc2) joinTuples ≠ joinSrc2Expected ∧
    (runWith (fun c st _ => shouldEmitSpec c st) joinPlanSrc2
        (initState joinPlanSrc2) joinTuples).get? 6 =
      some (.ok [rowLR 2 2, rowLR 2 3, rowLR 3 2, rowLR 3 3,
                 rowLR 4 2, rowLR 4 3]) ∧
    joinSrc2Expected.get? 6 = some (.ok []) := by
  refine ⟨by decide, by decide, by decide⟩

/-- C1, as amended.  For a cadence listing thresholds for one or more
relations, a Process call triggers an emission cycle iff the admitted
tuple's own relation `r` is listed with some threshold `T` and
`arrival_counts[r] % T = 0` at this admission; arrivals on unlisted
relations never trigger, and the counts of other listed relations are not
consulted.  Both JOIN cadence scenarios reproduce their tests' asserted
outputs under this gate. -/
theorem C1_theorem :
    (∀ (cadence : List CadenceEntry) (st : ExecState) (rel : String),
        cadence ≠ [] → (∀ ce ∈ cadence, ce.rel ≠ none) →
        (shouldEmit cadence st rel = true ↔
          ∃ ce ∈ cadence, ce.rel = some rel ∧
            getCount st.countsRel rel % ce.threshold = 0)) ∧
    runPlan joinPlanSrc2 joinTuples = joinSrc2Expected ∧
    runPlan joinPlanBoth joinTuples = joinBothExpected := by
  refine ⟨?_, by decide, by decide⟩
  intro cadence st rel hne hrels
  unfold shouldEmit
  rw [if_neg (by simpa using hne)]
  rw [List.any_eq_true]
  constructor
  · rintro ⟨ce, hmem, hce⟩
    cases hrel : ce.rel with
    | none => exact absurd hrel (hrels ce hmem)
    | some r =>
        rw [hrel] at hce
        simp only [Bool.and_eq_true, beq_iff_eq] at hce
        obtain ⟨hr, hmod⟩ := hce
        subst hr
        exact ⟨ce, hmem, hrel, by simpa using hmod⟩
  · rintro ⟨ce, hmem, hrel, hmod⟩
    refine ⟨ce, hmem, ?_⟩
    rw [hrel]
    simp [hmod]

/-- C1, witness: the amended gate fires on a one-entry cadence for the
admitted tuple's relation when its count hits the modulus. -/
theorem C1_witness :
    shouldEmit [⟨some "src2", 3⟩]
      ⟨[], [("src2", 3)], 3, []⟩ "src2" = true :=
  (C1_theorem.1 [⟨some "src2", 3⟩] ⟨[], [("src2", 3)], 3, []⟩ "src2"
      (by decide) (by decide)).mpr
    ⟨⟨some "src2", 3⟩, by decide, rfl, by decide⟩

/-- C2.  Whenever a Process call returns an error, the prior-emission
memo of the resulting state equals the memo before the call, so the next
successful ISTREAM/DSTREAM diff is taken against the last non-errored,
non-skipped cycle's rows; and the concrete six-tuple ISTREAM scenario
with the second tuple lacking `int` produces exactly the test's asserted
sequence: one row, two errors, the two-row catch-up output, then one row
per call. -/
theorem C2_theorem :
    (∀ (gate : List CadenceEntry → ExecState → String → Bool)
        (plan : LogicalPlan) (st : ExecState) (t : Tuple)
        (st' : ExecState) (e : EvalError),
        processWith gate plan st t = (st', .error e) →
        st'.prevOutput = st.prevOutput) ∧
    runPlan planIstreamInt brokenTuples = istreamBrokenExpected := by
  refine ⟨?_, by decide⟩
  intro gate plan st t st' e hrun
  cases hadm : admitTuple plan st t with
  | none =>
      unfold processWith at hrun
      rw [hadm] at hrun
      simp only [Prod.mk.injEq] at hrun
      rw [← hrun.1]
  | some st1 =>
      rw [processWith_error_state gate plan st t st1 st' e hadm hrun]
      exact admitTuple_prevOutput plan st t st1 hadm

/-- C2, witness: the first broken-tuple call errors and leaves the
initially empty memo empty. -/
theorem C2_witness :
    (⟨[[⟨[], "src", 0, 0, 7⟩]], [("src", 1)], 1, []⟩ :
        ExecState).prevOutput = (initState planIstreamInt).prevOutput :=
  C2_theorem.1 shouldEmit planIstreamInt (initState planIstreamInt)
    ⟨[], "src", 0, 0, 7⟩ ⟨[[⟨[], "src", 0, 0, 7⟩]], [("src", 1)], 1, []⟩
    .missingColumn (by decide)

/-- C3.  When a Process call whose admission succeeded returns an error,
the resulting state is exactly the admitted state — the window-buffer
update is not rolled back (and the memo is untouched); the concrete
six-tuple RSTREAM scenario shows the call erroring exactly while the
broken tuple sits in the two-tuple window and succeeding again from the
fourth call on, once the RANGE rule has evicted it. -/
theorem C3_theorem :
    (∀ (gate : List CadenceEntry → ExecState → String → Bool)
        (plan : LogicalPlan) (st : ExecState) (t : Tuple)
        (st1 st' : ExecState) (e : EvalError),
        admitTuple plan st t = some st1 →
        processWith gate plan st t = (st', .error e) →
        st' = st1) ∧
    runPlan planRstreamInt brokenTuples = rstreamBrokenExpected := by
  exact ⟨processWith_error_state, by decide⟩

/-- C3, witness: the erroring first call on a broken tuple ends in the
admitted state, broken tuple retained in the window. -/
theorem C3_witness :
    (⟨[[⟨[], "src", 0, 0, 7⟩]], [("src", 1)], 1, []⟩ : ExecState) =
      ⟨[[⟨[], "src", 0, 0, 7⟩]], [("src", 1)], 1, []⟩ :=
  C3_theorem.1 shouldEmit planRstreamInt (initState planRstreamInt)
    ⟨[], "src", 0, 0, 7⟩ ⟨[[⟨[], "src", 0, 0, 7⟩]], [("src", 1)], 1, []⟩
    ⟨[[⟨[], "src", 0, 0, 7⟩]], [("src", 1)], 1, []⟩
    .missingColumn (by decide) (by decide)

/-- C4.  A Process call whose admission succeeded but whose cadence gate
does not fire returns the admitted state together with an empty output
and no error: the window buffers and arrival counts carry the admission
while the prior-emission memo is unchanged.  The two concrete
`EVERY 2 TUPLES` scenarios reproduce their tests' outputs; in the ISTREAM
one, each firing call's two-row output shows the window reflecting the
tuple admitted during the skipped call and the diff being taken against
the last fired cycle. -/
theorem C4_theorem :
    (∀ (gate : List CadenceEntry → ExecState → String → Bool)
        (plan : LogicalPlan) (st : ExecState) (t : Tuple)
        (st1 : ExecState),
        admitTuple plan st t = some st1 →
        gate plan.cadence st1 t.inputName = false →
        processWith gate plan st t = (st1, .ok []) ∧
          st1.prevOutput = st.prevOutput) ∧
    runPlan planIstreamEvery2 (getTuples 6) = istreamEvery2Expected ∧
    runPlan planRstreamEvery2 (getTuples 4) = rstreamEvery2Expected := by
  refine ⟨?_, by decide, by decide⟩
  intro gate plan st t st1 hadm hg
  exact ⟨processWith_of_admit_of_gateFalse gate plan st t st1 hadm hg,
    admitTuple_prevOutput plan st t st1 hadm⟩

/-- C4, witness: the first call of the `EVERY 2 TUPLES` ISTREAM scenario
is skipped, returning the admitted state and an empty output with the
memo untouched. -/
theorem C4_witness :
    process planIstreamEvery2 (initState planIstreamEvery2)
        (testTuple 1) =
      (⟨[[testTuple 1]], [("src", 1)], 1, []⟩, .ok []) ∧
    (⟨[[testTuple 1]], [("src", 1)], 1, []⟩ : ExecState).prevOutput =
      (initState planIstreamEvery2).prevOutput :=
  C4_theorem.1 shouldEmit planIstreamEvery2 (initState planIstreamEvery2)
    (testTuple 1) ⟨[[testTuple 1]], [("src", 1)], 1, []⟩
    (by decide) (by decide)

/-- C5, counterexample.  The claimed pairwise invariant does not hold
unconditionally: admitting a tuple at second 100 and then one at second 0
into a `Time(2)` window evicts nothing — neither timestamp is strictly
below `0 - 2` — and leaves two retained tuples 100 seconds apart. -/
theorem C5_counterexample :
    bufferAdmit (.time 2) [] (tsTuple 100) = [tsTuple 100] ∧
    bufferAdmit (.time 2) [tsTuple 100] (tsTuple 0) =
      [tsTuple 100, tsTuple 0] ∧
    ¬ |(tsTuple 100).timestamp - (tsTuple 0).timestamp| ≤ 2 := by
  refine ⟨by decide, by decide, by decide⟩

/-- C5, as amended.  A `Time(d)` admit appends the tuple and retains
exactly those tuples of the extended buffer whose event-timestamp is at
least `t_new - d` (so the boundary value is retained and everything
strictly below it is evicted); and provided every tuple already buffered
has an event-timestamp not exceeding the admitted tuple's, all pairs of
retained tuples lie within `d` of each other.  The cited
`RANGE 2 SECONDS` scenario reproduces its test's outputs. -/
theorem C5_theorem :
    (∀ (d : Int) (w : List Tuple) (t u : Tuple),
        u ∈ bufferAdmit (.time d) w t ↔
          u ∈ w ++ [t] ∧ t.timestamp - d ≤ u.timestamp) ∧
    (∀ (d : Int) (w : List Tuple) (t : Tuple),
        (∀ u ∈ w, u.timestamp ≤ t.timestamp) →
        ∀ a ∈ bufferAdmit (.time d) w t,
          ∀ b ∈ bufferAdmit (.time d) w t,
            |a.timestamp - b.timestamp| ≤ d) ∧
    runPlan planRstreamTime2 (getTuples 4) = rstreamTime2Expected := by
  refine ⟨bufferAdmit_time_mem, ?_, by decide⟩
  intro d w t hmono a ha b hb
  have hat := bufferAdmit_time_le d w t hmono a ha
  have hbt := bufferAdmit_time_le d w t hmono b hb
  have had := ((bufferAdmit_time_mem d w t a).mp ha).2
  have hbd := ((bufferAdmit_time_mem d w t b).mp hb).2
  rw [abs_le]
  omega

/-- C5, witness: two monotone admissions at seconds 0 and 1 leave a pair
within the two-second bound. -/
theorem C5_witness :
    |(tsTuple 0).timestamp - (tsTuple 1).timestamp| ≤ 2 :=
  C5_theorem.2.1 2 [tsTuple 0] (tsTuple 1) (by decide)
    (tsTuple 0) (by decide) (tsTuple 1) (by decide)

/-- C6.  For a single input the relation composer yields one row binding
per window tuple, in admission order; a `Count n` window never holds more
than `n` tuples after an admission; and the concrete
`SELECT RSTREAM int AS a FROM src [RANGE 2 TUPLES]` scenario fed the four
test tuples produces exactly the four asserted outputs, one projected row
per windowed tuple. -/
theorem C6_theorem :
    (∀ (spec : InputSpec) (w : List Tuple),
        compose [(spec, w)] = w.map (fun t => [sideOf spec t])) ∧
    (∀ (n : Nat) (w : List Tuple) (t : Tuple),
        (bufferAdmit (.count n) w t).length ≤ n) ∧
    runPlan planRstreamCount2 (getTuples 4) = rstreamCount2Expected :=
  ⟨compose_single, bufferAdmit_count_length, by decide⟩

/-- C7, counterexample.  The DSTREAM diff is not the order-preserving
multiset difference: after two constant-row cycles the memo holds two
copies of `{a:1}`; a time jump then shrinks the window so that the next
cycle produces a single copy, and the plan emits nothing, whereas the
multiset difference of the memo minus that cycle's rows is `[{a:1}]`. -/
theorem C7_counterexample :
    dstreamJumpSt2.prevOutput = [rowA 1, rowA 1] ∧
    (process planDstreamConst dstreamJumpSt2 (tsTuple 10)).2 = .ok [] ∧
    computeRows planDstreamConst
        ((admitTuple planDstreamConst dstreamJumpSt2 (tsTuple 10)).getD
          dstreamJumpSt2) = .ok [rowA 1] ∧
    msDiff dstreamJumpSt2.prevOutput [rowA 1] = [rowA 1] := by
  refine ⟨by decide, by decide, by decide, by decide⟩

/-- C7, as amended.  A firing DSTREAM cycle emits, in the memo's order,
those rows of the prior-emission memo whose value does not occur at all
in the current cycle's row list `C`, and then sets the memo to `C`.  The
concrete DSTREAM scenario reproduces its test's outputs, and the ISTREAM
constant scenario — whose window holds duplicate rows — reproduces the
test assertions that force this set-membership reading of the diff. -/
theorem C7_theorem :
    (∀ (gate : List CadenceEntry → ExecState → String → Bool)
        (plan : LogicalPlan) (st : ExecState) (t : Tuple)
        (st1 : ExecState) (rows : List VMap),
        plan.kind = .dstream →
        admitTuple plan st t = some st1 →
        gate plan.cadence st1 t.inputName = true →
        computeRows plan st1 = .ok rows →
        processWith gate plan st t =
          ({ st1 with prevOutput := rows },
            .ok (diffRows st.prevOutput rows))) ∧
    runPlan planDstreamCount2 (getTuples 4) = dstreamCount2Expected ∧
    runPlan planIstreamConst (getTuples 4) = istreamConstExpected := by
  refine ⟨?_, by decide, by decide⟩
  intro gate plan st t st1 rows hkind hadm hg hrows
  unfold processWith
  rw [hadm]
  simp [hg, hrows, hkind, admitTuple_prevOutput plan st t st1 hadm]

/-- C7, witness: the first DSTREAM call fires, emits the diff of the
empty memo against its one-row cycle, and memoizes that row. -/
theorem C7_witness :
    process planDstreamCount2 (initState planDstreamCount2)
        (testTuple 1) =
      (⟨[[testTuple 1]], [("src", 1)], 1, [rowA 1]⟩,
        .ok (diffRows (initState planDstreamCount2).prevOutput
              [rowA 1])) :=
  C7_theorem.1 shouldEmit planDstreamCount2 (initState planDstreamCount2)
    (testTuple 1) ⟨[[testTuple 1]], [("src", 1)], 1, []⟩ [rowA 1]
    rfl (by decide) (by decide) (by decide)

/-- C8.  Projection items are applied left to right with last-write-wins:
a write always wins the lookup of its key, the list `*, (int-1)*2 AS int`
yields rows whose `int` holds the doubled value, and the list
`(int-1)*2 AS int, *` yields rows whose `int` holds the original input
value, exactly as the two overriding tests assert. -/
theorem C8_theorem :
    (∀ (m : VMap) (k : String) (v : Value),
        mapGet (mapInsert m k v) k = some v) ∧
    runPlan planWildcardThenInt (getTuples 4) =
      [.ok [rowInt 0], .ok [rowInt 2], .ok [rowInt 4], .ok [rowInt 6]] ∧
    runPlan planIntThenWildcard (getTuples 4) =
      [.ok [rowInt 1], .ok [rowInt 2], .ok [rowInt 3], .ok [rowInt 4]] :=
  ⟨mapGet_mapInsert, by decide, by decide⟩

/-- C9.  The duplicate-edge detection of `NamedInput` and of the sink
declarer's `Input` compares only against the first stored edge: a new
edge equal to the head of the edge list is rejected with the
`is already connected` error, while a new edge equal to any edge other
than the head is appended again without any error. -/
theorem C9_theorem :
    (∀ (bd : BoxDeclarer) (refname inputName : String)
        (rest : List DataflowEdge),
        bd.err = none →
        isValidOutputReference bd.tb refname = true →
        checkInput bd.schema inputName = true →
        bd.tb.edges = ⟨refname, bd.name, inputName⟩ :: rest →
        namedInput bd refname inputName =
          { bd with err := some (.alreadyConnected bd.name refname) }) ∧
    (∀ (bd : BoxDeclarer) (refname inputName : String)
        (e : DataflowEdge) (rest : List DataflowEdge),
        bd.err = none →
        isValidOutputReference bd.tb refname = true →
        checkInput bd.schema inputName = true →
        bd.tb.edges = e :: rest →
        e ≠ ⟨refname, bd.name, inputName⟩ →
        namedInput bd refname inputName =
          { bd with tb := { bd.tb with edges :=
              bd.tb.edges ++ [⟨refname, bd.name, inputName⟩] } }) ∧
    (∀ (sd : SinkDeclarer) (refname : String)
        (rest : List DataflowEdge),
        sd.err = none →
        isValidOutputReference sd.tb refname = true →
        sd.tb.edges = ⟨refname, sd.name, "output"⟩ :: rest →
        sinkInput sd refname =
          { sd with err := some (.alreadyConnected sd.name refname) }) ∧
    (∀ (sd : SinkDeclarer) (refname : String)
        (e : DataflowEdge) (rest : List DataflowEdge),
        sd.err = none →
        isValidOutputReference sd.tb refname = true →
        sd.tb.edges = e :: rest →
        e ≠ ⟨refname, sd.name, "output"⟩ →
        sinkInput sd refname =
          { sd with tb := { sd.tb with edges :=
              sd.tb.edges ++ [⟨refname, sd.name, "output"⟩] } }) := by
  refine ⟨?_, ?_, ?_, ?_⟩
  · intro bd refname inputName rest herr hvalid hcheck hedges
    unfold namedInput
    rw [herr]
    simp [hvalid, hcheck, hedges, edgeAlreadyExists]
  · intro bd refname inputName e rest herr hvalid hcheck hedges hne
    unfold namedInput
    rw [herr]
    simp [hvalid, hcheck, hedges, edgeAlreadyExists, Ne.symm hne]
  · intro sd refname rest herr hvalid hedges
    unfold sinkInput
    rw [herr]
    simp [hvalid, hedges, edgeAlreadyExists]
  · intro sd refname e rest herr hvalid hedges hne
    unfold sinkInput
    rw [herr]
    simp [hvalid, hedges, edgeAlreadyExists, Ne.symm hne]

/-- C9, witness: over a builder already holding edges `s1 → b` and
`s2 → b`, re-declaring the first input errors with `alreadyConnected`,
while re-declaring the second silently records the edge a second time. -/
theorem C9_witness :
    boxInput c9Declarer "s1" =
      { c9Declarer with err := some (.alreadyConnected "b" "s1") } ∧
    boxInput c9Declarer "s2" =
      { c9Declarer with tb := { c9Builder with edges :=
          [c9Edge1, c9Edge2, c9Edge2] } } := by
  constructor
  · exact C9_theorem.1 c9Declarer "s1" "*" [c9Edge2]
      rfl (by decide) rfl rfl
  · exact C9_theorem.2.1 c9Declarer "s2" "*" c9Edge1 [c9Edge2]
      rfl (by decide) rfl rfl (by decide)

/-- C10.  `Tuple.Copy` preserves the event timestamp, the processing
timestamp, the batch id and the entire data mapping — every reachable
value, nested arrays and maps included, is structurally equal to the
original — and does so on the concrete all-kinds tuple of the test. -/
theorem C10_theorem :
    (∀ t : Tuple,
        (Tuple.copy t).timestamp = t.timestamp ∧
        (Tuple.copy t).procTimestamp = t.procTimestamp ∧
        (Tuple.copy t).batchId = t.batchId ∧
        (Tuple.copy t).data = t.data) ∧
    Tuple.copy copyTestTuple = copyTestTuple := by
  refine ⟨?_, by decide⟩
  intro t
  exact ⟨rfl, rfl, rfl, Value.cloneEntries_eq t.data⟩

end Sensorbee
